import Mathlib

/-!
Shallow embedding of the ms-payment service (Go) for checking the spec claims.

Sources embedded here:
- `src/internal/kafka/handler_test.go` (second document in the file): the
  current `PaymentService` with `ProcessPayment`, `RefundPayment`,
  `ProcessOrderEvent`, `publishPaymentEvent`.
- `src/internal/services/payment.go`: the `PaymentService.VerifyOTP` and
  `handleOTPFail` routines.
- `src/internal/redis/lock.go`: the confirmation-lock store (`AddOTP`,
  `RemoveOTP`, `GetOTP`).
- `src/unnamed/part_003`: `orderConsumerHandler.ConsumeClaim`, wired in
  `src/main.go` to `PaymentService.ProcessOrderEvent` as the message handler.

Modelling conventions: Go `float64` money amounts become `Rat` (the code only
compares amounts, it never does float arithmetic on them, so the comparisons
are embedded exactly); `time.Now()` becomes an explicit `now : Nat` parameter;
the storage and lock backends are embedded as in-memory lists with the row
semantics of the MySQL store (insert appends a row, update rewrites every row
with the given payment id, lookups return the first matching row); backend
infrastructure failures (MySQL or Redis connection errors) are out of scope,
so store and lock calls always respond; a Go runtime panic (nil-pointer
dereference) is modelled as `Option.none`.
-/

/-- PaymentStatus is a plain string in the source (`type PaymentStatus string`
in `internal/models/payment.go`), so a request can carry an empty status. -/
abbrev PaymentStatus := String

/-- StatusPending constant from `internal/models/payment.go`. -/
def statusPending : PaymentStatus := "pending"

/-- StatusSuccess constant from `internal/models/payment.go`. -/
def statusSuccess : PaymentStatus := "success"

/-- StatusFailed constant from `internal/models/payment.go`. -/
def statusFailed : PaymentStatus := "failed"

/-- StatusRefunded constant from `internal/models/payment.go`. -/
def statusRefunded : PaymentStatus := "refunded"

/-- StatusCancelled constant from `internal/models/payment.go`. -/
def statusCancelled : PaymentStatus := "cancelled"

/-- Payment record. The declaration of the current `models.Payment` struct is
not under `src/`; its fields are the ones read and written by the source in
`handler_test.go`, `unnamed/part_003` and `unnamed/part_008`
(PaymentID, OrderID, Status, Price, CreatedDate, UpdatedDate, URL), matching
spec section 3. -/
structure Payment where
  paymentID : String
  orderID : String
  status : PaymentStatus
  price : Rat
  createdDate : Nat
  updatedDate : Nat
  url : String
deriving Repr, DecidableEq

/-- PaymentRequest as used by `ProcessPayment` in `handler_test.go`: OrderID
plus optional PaymentID, Status, Price, URL, Source (a missing string field is
the empty string, a missing price is 0, as in Go zero values). The request
also carries a Date field that `ProcessPayment` never reads; it is omitted. -/
structure PaymentRequest where
  paymentID : String
  orderID : String
  status : PaymentStatus
  price : Rat
  url : String
  source : String
deriving Repr, DecidableEq

/-- PaymentEvent from `internal/models/payment.go`: the lifecycle event built
by `publishPaymentEvent`. -/
structure PaymentEvent where
  type : String
  paymentID : String
  payment : Payment
  timestamp : Nat
deriving Repr, DecidableEq

/-- Order as consumed by `ConsumeClaim` and `ProcessOrderEvent`. The struct
declaration is not under `src/`; the consumer reads only OrderID, Status and
Price (spec section 3 lists the remaining upstream-owned fields, which the
payment code never touches). -/
structure Order where
  orderID : String
  status : String
  price : Rat
deriving Repr, DecidableEq

/-- Store.GetPayment (MySQL: first row of `SELECT ... WHERE payment_id = ?`);
a missing row is the `payment not found` error, embedded as `none`. -/
def getPayment (store : List Payment) (id : String) : Option Payment :=
  store.find? (fun p => p.paymentID == id)

/-- Store.GetTicketByOrderID (MySQL: first row of
`SELECT ... WHERE order_id = ?`); a missing row is embedded as `none`. -/
def getTicketByOrderID (store : List Payment) (orderID : String) : Option Payment :=
  store.find? (fun p => p.orderID == orderID)

/-- Store.SavePayment (MySQL `INSERT`): appends a row. The payments table has
no uniqueness constraint on order_id (only `INDEX idx_order_id`, see the
migration in `unnamed/part_005`), so inserting a second row with an existing
order id succeeds. -/
def savePayment (store : List Payment) (p : Payment) : List Payment :=
  store ++ [p]

/-- Store.UpdatePayment (MySQL `UPDATE ... WHERE payment_id = ?`): rewrites
every row carrying the payment id. -/
def updatePayment (store : List Payment) (p : Payment) : List Payment :=
  store.map (fun row => if row.paymentID == p.paymentID then p else row)

/-- Lock key construction from `internal/redis/lock.go` (`"OTP_lock:" + orderID`). -/
def lockKey (orderID : String) : String := "OTP_lock:" ++ orderID

/-- The Redis confirmation-lock store: association list from lock key to the
stored value (the issued OTP code). -/
abbrev LockStore := List (String × String)

/-- Redis GET on the lock key, as used by `RemoveOTP`, `GetOTP` and
`IsOTPLocked`; `none` is the `redis.Nil` absent case. -/
def lockGet (locks : LockStore) (orderID : String) : Option String :=
  locks.lookup (lockKey orderID)

/-- Redis DEL on the lock key. -/
def lockDel (locks : LockStore) (orderID : String) : LockStore :=
  locks.filter (fun kv => kv.1 != lockKey orderID)

/-- Redis.AddOTP (`lock.go`): `SetNX(key, otp, lockTTL)` - set only if absent,
returning whether the lock was acquired. -/
def addOTP (locks : LockStore) (otp orderID : String) : Bool × LockStore :=
  match lockGet locks orderID with
  | some _ => (false, locks)
  | none => (true, (lockKey orderID, otp) :: locks)

/-- Redis.RemoveOTP (`lock.go` lines 34-57): GET the lock; `redis.Nil` means
already unlocked, return nil; otherwise DEL only when the stored value equals
the orderID parameter, else return nil without deleting. Returns the Go error
paired with the resulting lock store. -/
def removeOTP (locks : LockStore) (orderID : String) : Except String Unit × LockStore :=
  match lockGet locks orderID with
  | none => (Except.ok (), locks)
  | some val =>
      if val == orderID then
        (Except.ok (), lockDel locks orderID)
      else
        (Except.ok (), locks)

/-- Redis.GetOTP (`lock.go`): GET the lock value; the `redis.Nil` absent case
returns the empty string with a nil error. -/
def getOTP (locks : LockStore) (orderID : String) : String :=
  (lockGet locks orderID).getD ""

/-- Combined observable state of the service: the payment rows, the Redis lock
entries, the lifecycle-event publish attempts handed to the Kafka producer,
and the subset of attempts the broker accepted. -/
structure ServiceState where
  store : List Payment
  locks : LockStore
  attempts : List PaymentEvent
  published : List PaymentEvent
deriving Repr, DecidableEq

/-- Producer.PublishPaymentEvent outcome: the broker either accepts the event
or reports an error (unavailable broker, serialization failure). The outcome
is an input parameter `pubOk` because it is decided by the environment. -/
def producerPublish (pubOk : Bool) (e : PaymentEvent) : Except String Unit :=
  if pubOk then Except.ok () else Except.error ("failed to publish " ++ e.type)

/-- PaymentService.publishPaymentEvent (`handler_test.go` lines 337-353 and
`services/payment.go` lines 225-241): builds the event, hands it to the
producer, and inspects the producer error only to log it - in both branches
nothing is returned to the caller, so a failed publish changes no payment
state. -/
def publishPaymentEvent (pubOk : Bool) (st : ServiceState) (eventType : String)
    (p : Payment) (now : Nat) : ServiceState :=
  let event : PaymentEvent :=
    { type := eventType, paymentID := p.paymentID, payment := p, timestamp := now }
  match producerPublish pubOk event with
  | Except.ok _ =>
      { st with attempts := st.attempts ++ [event], published := st.published ++ [event] }
  | Except.error _ =>
      { st with attempts := st.attempts ++ [event] }

/-- publishPaymentEvent applied to a possibly-nil payment pointer. The Go
function immediately reads `payment.PaymentID`, so calling it with a nil
pointer is a runtime panic, modelled as `none`. -/
def publishPaymentEventPtr (pubOk : Bool) (st : ServiceState) (eventType : String)
    (p : Option Payment) (now : Nat) : Option ServiceState :=
  match p with
  | none => none
  | some payment => some (publishPaymentEvent pubOk st eventType payment now)

/-- PaymentService.RefundPayment success tail (`handler_test.go` lines
258-274): set status to refunded, refresh UpdatedDate, persist via
UpdatePayment and publish the `payment.refunded` event; the refunded payment
is returned. -/
def refundProceed (pubOk : Bool) (st : ServiceState) (payment : Payment) (now : Nat) :
    Except String Payment × ServiceState :=
  let refunded : Payment := { payment with status := statusRefunded, updatedDate := now }
  let st1 : ServiceState := { st with store := updatePayment st.store refunded }
  (Except.ok refunded, publishPaymentEvent pubOk st1 "payment.refunded" refunded now)

/-- PaymentService.RefundPayment (`handler_test.go` lines 237-275): look up the
payment by id, require status `success`, validate a supplied partial amount
(`*amount <= 0 || *amount > payment.Price` is rejected), then refund. -/
def refundPayment (pubOk : Bool) (st : ServiceState) (paymentID : String)
    (amount : Option Rat) (reason : String) (now : Nat) :
    Except String Payment × ServiceState :=
  match getPayment st.store paymentID with
  | none => (Except.error "payment not found", st)
  | some payment =>
      if payment.status ≠ statusSuccess then
        (Except.error "payment not refundable", st)
      else
        match amount with
        | some a =>
            if a ≤ 0 ∨ payment.price < a then
              (Except.error "invalid refund amount", st)
            else
              refundProceed pubOk st payment now
        | none => refundProceed pubOk st payment now

/-- ErrPaymentNotFound from `handler_test.go` line 50. -/
def ErrPaymentNotFound : String := "payment not found"

/-- ErrPaymentNotRefundable from `handler_test.go` line 56. -/
def ErrPaymentNotRefundable : String := "payment not refundable"

/-- ErrInvalidRefundAmount from `handler_test.go` line 55. -/
def ErrInvalidRefundAmount : String := "invalid refund amount"

/-- Resolution step of ProcessPayment (`handler_test.go` lines 94-113): when a
PaymentID is supplied, try GetPayment first; when that is not provided or
finds nothing, fall back to GetTicketByOrderID. -/
def resolveExisting (store : List Payment) (req : PaymentRequest) : Option Payment :=
  match (if req.paymentID != "" then getPayment store req.paymentID else none) with
  | some p => some p
  | none => getTicketByOrderID store req.orderID

/-- Update step of ProcessPayment (`handler_test.go` lines 116-133): Status is
assigned unconditionally from the request, UpdatedDate is refreshed, Price is
assigned only when `req.Price > 0`, URL only when `req.URL != ""`. -/
def applyRequest (p : Payment) (req : PaymentRequest) (now : Nat) : Payment :=
  let p1 : Payment := { p with status := req.status, updatedDate := now }
  let p2 : Payment := if req.price > 0 then { p1 with price := req.price } else p1
  if req.url != "" then { p2 with url := req.url } else p2

/-- Creation step of ProcessPayment (`handler_test.go` lines 155-189): take
the PaymentID from the request or generate `pay_<unix nanos>`, copy OrderID
and Status, set Price and URL only when provided, stamp both dates. -/
def newPaymentFromRequest (req : PaymentRequest) (now : Nat) : Payment :=
  { paymentID := if req.paymentID != "" then req.paymentID else "pay_" ++ toString now
  , orderID := req.orderID
  , status := req.status
  , price := if req.price > 0 then req.price else 0
  , createdDate := now
  , updatedDate := now
  , url := if req.url != "" then req.url else "" }

/-- Event switch at the end of both ProcessPayment paths (`handler_test.go`
lines 143-149 and 199-204): publish `payment.success` or `payment.failed`
when the resulting status is one of those, otherwise publish nothing. -/
def publishByStatus (pubOk : Bool) (st : ServiceState) (p : Payment) (now : Nat) :
    ServiceState :=
  if p.status == statusSuccess then
    publishPaymentEvent pubOk st "payment.success" p now
  else if p.status == statusFailed then
    publishPaymentEvent pubOk st "payment.failed" p now
  else st

/-- PaymentService.ProcessPayment (`handler_test.go` lines 90-207): resolve an
existing payment, partially update and persist it, or create and save a new
one; then publish by status. Both the update and the create path return the
resulting payment with a nil error. -/
def processPayment (pubOk : Bool) (st : ServiceState) (req : PaymentRequest) (now : Nat) :
    Except String Payment × ServiceState :=
  match resolveExisting st.store req with
  | some p0 =>
      let updated : Payment := applyRequest p0 req now
      let st1 : ServiceState := { st with store := updatePayment st.store updated }
      (Except.ok updated, publishByStatus pubOk st1 updated now)
  | none =>
      let payment : Payment := newPaymentFromRequest req now
      let st1 : ServiceState := { st with store := savePayment st.store payment }
      (Except.ok payment, publishByStatus pubOk st1 payment now)

/-- Checkout URL built for a new order payment (`handler_test.go` line 320 and
`unnamed/part_003` line 279). -/
def checkoutURL (orderID : String) : String :=
  "https://payment.gateway.com/checkout/" ++ orderID

/-- PaymentService.ProcessOrderEvent (`handler_test.go` lines 303-335): skip
when a payment already exists for the order; otherwise create a pending
payment with a fresh UUID (passed in as `uuid`), the price copied from the
order and the checkout URL, save it, and publish `payment.created`. The
struct literal leaves UpdatedDate at its zero value. -/
def processOrderEvent (pubOk : Bool) (st : ServiceState) (order : Order)
    (uuid : String) (now : Nat) : Except String Unit × ServiceState :=
  match getTicketByOrderID st.store order.orderID with
  | some _ => (Except.ok (), st)
  | none =>
      let payment : Payment :=
        { paymentID := uuid
        , orderID := order.orderID
        , status := statusPending
        , price := order.price
        , createdDate := now
        , updatedDate := 0
        , url := checkoutURL order.orderID }
      let st1 : ServiceState := { st with store := savePayment st.store payment }
      (Except.ok (), publishPaymentEvent pubOk st1 "payment.created" payment now)

/-- One well-formed order message through orderConsumerHandler.ConsumeClaim
(`unnamed/part_003` lines 247-303), wired as in `src/main.go` line 108 with
`PaymentService.ProcessOrderEvent` as the handler. ConsumeClaim itself builds
a pending payment with a fresh UUID (`uuid1`) and saves it unconditionally -
there is no existence check in ConsumeClaim - and only then invokes the
handler (which performs its own existence check, uses `uuid2` for any payment
it would create, and whose error is logged and ignored); finally the message
is acknowledged. -/
def consumeOrderMessage (pubOk : Bool) (st : ServiceState) (order : Order)
    (uuid1 uuid2 : String) (now : Nat) : ServiceState :=
  let payment : Payment :=
    { paymentID := uuid1
    , orderID := order.orderID
    , status := statusPending
    , price := order.price
    , createdDate := now
    , updatedDate := 0
    , url := checkoutURL order.orderID }
  let st1 : ServiceState := { st with store := savePayment st.store payment }
  (processOrderEvent pubOk st1 order uuid2 now).2

/-- PaymentService.handleOTPFail (`services/payment.go` lines 303-309): fetch
the payment for the order again and, when found, set its status to failed and
persist; the only field written is Status. -/
def handleOTPFail (st : ServiceState) (orderID : String) : ServiceState :=
  match getTicketByOrderID st.store orderID with
  | some payment =>
      { st with store := updatePayment st.store { payment with status := statusFailed } }
  | none => st

/-- PaymentService.VerifyOTP (`services/payment.go` lines 250-301). Branches,
in source order: payment lookup failure publishes `otp.failed` with the nil
payment pointer - a nil dereference panic inside publishPaymentEvent,
modelled as `none`; an empty locked code publishes `otp.failed`, marks the
payment failed, removes the lock and returns false; a matching code sets the
payment to success, persists, publishes `otp.success`, removes the lock and
returns true; a mismatch marks the payment failed, publishes `otp.failed`
with the originally fetched payment, removes the lock and returns false.
The GetOTP infrastructure-error branch (lines 260-266) cannot fire under the
always-responding lock store. The lock removal in every branch is the
owner-checked Redis.RemoveOTP, whose error is discarded with `_ =`. -/
def verifyOTP (pubOk : Bool) (st : ServiceState) (orderID otp : String) :
    Option (Bool × ServiceState) :=
  match getTicketByOrderID st.store orderID with
  | none =>
      publishPaymentEventPtr pubOk st "otp.failed" none 0 |>.map (fun st1 =>
        (false, { st1 with locks := (removeOTP st1.locks orderID).2 }))
  | some payment =>
      let lockedOTP : String := getOTP st.locks orderID
      if lockedOTP == "" then
        let st1 : ServiceState := publishPaymentEvent pubOk st "otp.failed" payment 0
        let st2 : ServiceState := handleOTPFail st1 orderID
        some (false, { st2 with locks := (removeOTP st2.locks orderID).2 })
      else if lockedOTP == otp then
        let updated : Payment := { payment with status := statusSuccess }
        let st1 : ServiceState := { st with store := updatePayment st.store updated }
        let st2 : ServiceState := publishPaymentEvent pubOk st1 "otp.success" updated 0
        some (true, { st2 with locks := (removeOTP st2.locks orderID).2 })
      else
        let st1 : ServiceState := handleOTPFail st orderID
        let st2 : ServiceState := publishPaymentEvent pubOk st1 "otp.failed" payment 0
        some (false, { st2 with locks := (removeOTP st2.locks orderID).2 })

/-- Number of payment rows carrying a given order id. -/
def countPaymentsForOrder (store : List Payment) (orderID : String) : Nat :=
  (store.filter (fun p => p.orderID == orderID)).length

/-- The empty initial service state. -/
def initialState : ServiceState :=
  { store := [], locks := [], attempts := [], published := [] }

/-- Decidable validity of an optional partial refund amount against a price:
absent is valid, a supplied amount must be positive and at most the price
(the complement of the rejection test in RefundPayment). -/
def amountValidB (amount : Option Rat) (price : Rat) : Bool :=
  match amount with
  | none => true
  | some a => decide (0 < a) && decide (a ≤ price)

/-- Fixture: the order used in the duplicate-delivery evaluation of the
ingestion path. -/
def c1Order : Order := { orderID := "ord-1", status := "created", price := 100 }

/-- Fixture: a pending payment awaiting OTP confirmation for ord-1. -/
def c2Payment : Payment :=
  { paymentID := "pay-1", orderID := "ord-1", status := statusPending, price := 100,
    createdDate := 0, updatedDate := 0, url := "" }

/-- Fixture: state holding the pending payment and the issued code 482913
locked for ord-1, the situation right after IssueAndLock. -/
def c2State : ServiceState :=
  { store := [c2Payment], locks := [(lockKey "ord-1", "482913")],
    attempts := [], published := [] }

/-- Fixture: the state left behind by the first Verify on c2State. -/
def c2After : ServiceState :=
  ((verifyOTP true c2State "ord-1" "482913").getD (false, c2State)).2

/-- Fixture: a payment belonging to an unrelated order. -/
def c3Payment : Payment :=
  { paymentID := "pay-3", orderID := "ord-3", status := statusPending, price := 10,
    createdDate := 0, updatedDate := 0, url := "" }

/-- Fixture: state whose store holds no payment for ord-x. -/
def c3State : ServiceState :=
  { store := [c3Payment], locks := [], attempts := [], published := [] }

/-- Fixture: a successful payment used for the partial-update evaluation. -/
def c4Payment : Payment :=
  { paymentID := "p1", orderID := "o1", status := statusSuccess, price := 5,
    createdDate := 0, updatedDate := 0, url := "u" }

/-- Fixture: state holding only c4Payment. -/
def c4State : ServiceState :=
  { store := [c4Payment], locks := [], attempts := [], published := [] }

/-- Fixture: a request for order o1 supplying no PaymentID, no Status, no
Price and no URL (Go zero values for unset fields). -/
def c4Request : PaymentRequest :=
  { paymentID := "", orderID := "o1", status := "", price := 0, url := "", source := "" }

/-- Fixture: a request for order o1 carrying status success. -/
def c4RequestSuccess : PaymentRequest :=
  { paymentID := "", orderID := "o1", status := statusSuccess, price := 0, url := "", source := "" }

/-- Fixture: a pending (hence non-refundable) payment. -/
def fix5Payment : Payment :=
  { paymentID := "pay-5", orderID := "ord-5", status := statusPending, price := 30,
    createdDate := 0, updatedDate := 0, url := "" }

/-- Fixture: state holding the pending payment pay-5. -/
def fix5State : ServiceState :=
  { store := [fix5Payment], locks := [], attempts := [], published := [] }

/-- Fixture: a successful payment with price 50, as in the spec scenario for
refund bounds. -/
def fix6Payment : Payment :=
  { paymentID := "pay-2", orderID := "ord-2", status := statusSuccess, price := 50,
    createdDate := 0, updatedDate := 0, url := "" }

/-- Fixture: state holding the successful payment pay-2. -/
def fix6State : ServiceState :=
  { store := [fix6Payment], locks := [], attempts := [], published := [] }

/-- Fixture: a lock store holding the issued code 482913 for ord-1. -/
def fixLocks : LockStore := [(lockKey "ord-1", "482913")]

theorem publishPaymentEvent_store (pubOk : Bool) (st : ServiceState) (ty : String)
    (p : Payment) (now : Nat) : (publishPaymentEvent pubOk st ty p now).store = st.store := by
  unfold publishPaymentEvent producerPublish
  cases pubOk <;> rfl

theorem publishPaymentEvent_attempts (pubOk : Bool) (st : ServiceState) (ty : String)
    (p : Payment) (now : Nat) :
    (publishPaymentEvent pubOk st ty p now).attempts =
      st.attempts ++ [{ type := ty, paymentID := p.paymentID, payment := p, timestamp := now }] := by
  unfold publishPaymentEvent producerPublish
  cases pubOk <;> rfl

theorem publishByStatus_store (pubOk : Bool) (st : ServiceState) (p : Payment) (now : Nat) :
    (publishByStatus pubOk st p now).store = st.store := by
  unfold publishByStatus
  split
  · exact publishPaymentEvent_store ..
  · split
    · exact publishPaymentEvent_store ..
    · rfl

/-- C10: releasing a confirmation lock that is not present is a silent no-op:
RemoveOTP returns a nil error and leaves the lock store unchanged. -/
theorem removeOTP_absent_is_noop (locks : LockStore) (orderID : String)
    (hget : lockGet locks orderID = none) :
    removeOTP locks orderID = (Except.ok (), locks) := by
  unfold removeOTP
  rw [hget]

theorem removeOTP_absent_is_noop_witness :
    lockGet [] "ord-9" = none
    ∧ removeOTP [] "ord-9" = (Except.ok (), []) :=
  ⟨by decide, removeOTP_absent_is_noop [] "ord-9" (by decide)⟩

/-- C8: when the stored confirmation-lock value differs from the orderID (as it
always does for an issued 6-digit code stored against a GUID order id),
RemoveOTP returns a nil error without deleting the lock, so this code path
never releases the lock and only TTL expiry can. -/
theorem removeOTP_not_owner_keeps_lock (locks : LockStore) (orderID v : String)
    (hget : lockGet locks orderID = some v) (hne : v ≠ orderID) :
    removeOTP locks orderID = (Except.ok (), locks) := by
  unfold removeOTP
  rw [hget]
  simp [hne]

theorem removeOTP_not_owner_keeps_lock_witness :
    lockGet fixLocks "ord-1" = some "482913"
    ∧ removeOTP fixLocks "ord-1" = (Except.ok (), fixLocks) :=
  ⟨by decide, removeOTP_not_owner_keeps_lock fixLocks "ord-1" "482913" (by decide) (by decide)⟩

/-- C5: RefundPayment on a stored payment whose status is not success fails
with ErrPaymentNotRefundable and returns the entire service state unchanged. -/
theorem refundPayment_requires_success (pubOk : Bool) (st : ServiceState)
    (paymentID : String) (amount : Option Rat) (reason : String) (now : Nat)
    (payment : Payment)
    (hfind : getPayment st.store paymentID = some payment)
    (hstat : payment.status ≠ statusSuccess) :
    refundPayment pubOk st paymentID amount reason now =
      (Except.error ErrPaymentNotRefundable, st) := by
  unfold refundPayment
  rw [hfind]
  simp [hstat, ErrPaymentNotRefundable]

theorem refundPayment_requires_success_witness :
    getPayment fix5State.store "pay-5" = some fix5Payment
    ∧ refundPayment true fix5State "pay-5" none "requested" 7 =
        (Except.error ErrPaymentNotRefundable, fix5State) :=
  ⟨by decide,
   refundPayment_requires_success true fix5State "pay-5" none "requested" 7 fix5Payment
     (by decide) (by decide)⟩

/-- C6: on a payment with status success, a supplied refund amount that is
non-positive or exceeds the price makes RefundPayment fail with
ErrInvalidRefundAmount leaving the whole state (hence the status) unchanged,
while an amount within bounds refunds: the returned payment is the stored one
with status refunded and UpdatedDate refreshed, it is persisted via
UpdatePayment, and a payment.refunded event is handed to the publisher. -/
theorem refundPayment_amount_bound (pubOk : Bool) (st : ServiceState)
    (paymentID reason : String) (now : Nat) (a : Rat) (payment : Payment)
    (hfind : getPayment st.store paymentID = some payment)
    (hstat : payment.status = statusSuccess) :
    ((a ≤ 0 ∨ payment.price < a) →
        refundPayment pubOk st paymentID (some a) reason now =
          (Except.error ErrInvalidRefundAmount, st))
    ∧ (0 < a → a ≤ payment.price →
        (refundPayment pubOk st paymentID (some a) reason now).1 =
          Except.ok { payment with status := statusRefunded, updatedDate := now }
        ∧ (refundPayment pubOk st paymentID (some a) reason now).2.store =
            updatePayment st.store { payment with status := statusRefunded, updatedDate := now }
        ∧ (refundPayment pubOk st paymentID (some a) reason now).2.attempts =
            st.attempts ++
              [{ type := "payment.refunded", paymentID := payment.paymentID,
                 payment := { payment with status := statusRefunded, updatedDate := now },
                 timestamp := now }]) := by
  constructor
  · intro hbad
    unfold refundPayment
    rw [hfind]
    simp [hstat, hbad, ErrInvalidRefundAmount]
  · intro hpos hle
    have hbad : ¬ (a ≤ 0 ∨ payment.price < a) := by
      push_neg
      exact ⟨hpos, hle⟩
    unfold refundPayment refundProceed
    rw [hfind]
    simp [hstat, hbad, publishPaymentEvent_store, publishPaymentEvent_attempts]

theorem refundPayment_amount_bound_witness :
    getPayment fix6State.store "pay-2" = some fix6Payment
    ∧ fix6Payment.status = statusSuccess
    ∧ refundPayment true fix6State "pay-2" (some 60) "customer" 9 =
        (Except.error ErrInvalidRefundAmount, fix6State)
    ∧ (refundPayment true fix6State "pay-2" (some 20) "customer" 9).1 =
        Except.ok { fix6Payment with status := statusRefunded, updatedDate := 9 } :=
  ⟨by decide, by decide,
   (refundPayment_amount_bound true fix6State "pay-2" "customer" 9 60 fix6Payment
       (by decide) (by decide)).1 (Or.inr (by decide)),
   ((refundPayment_amount_bound true fix6State "pay-2" "customer" 9 20 fix6Payment
       (by decide) (by decide)).2 (by decide) (by decide)).1⟩

theorem mem_updatePayment_of_ne (store : List Payment) (p row : Payment)
    (h : row ∈ store) (hne : row.paymentID ≠ p.paymentID) :
    row ∈ updatePayment store p := by
  unfold updatePayment
  have hmap := List.mem_map_of_mem (fun r => if r.paymentID == p.paymentID then p else r) h
  simpa [hne] using hmap

/-- C7: the publish outcome never reaches the caller. For any broker outcome
pubOk - in particular a failing broker - RefundPayment on a refundable payment
still returns the refunded payment with a nil error and the persisted store
reflects the refund, and ProcessPayment returns the same value and persists
the same store as it does when every publish succeeds. -/
theorem refund_and_process_isolate_publish_failure (st : ServiceState)
    (paymentID reason : String) (amount : Option Rat) (now : Nat) (payment : Payment)
    (hfind : getPayment st.store paymentID = some payment)
    (hstat : payment.status = statusSuccess)
    (hamt : amountValidB amount payment.price = true) :
    ∀ pubOk : Bool,
      ((refundPayment pubOk st paymentID amount reason now).1 =
          Except.ok { payment with status := statusRefunded, updatedDate := now }
        ∧ (refundPayment pubOk st paymentID amount reason now).2.store =
            updatePayment st.store { payment with status := statusRefunded, updatedDate := now })
      ∧ ∀ (req : PaymentRequest) (n : Nat),
          (processPayment pubOk st req n).1 = (processPayment true st req n).1
          ∧ (processPayment pubOk st req n).2.store = (processPayment true st req n).2.store := by
  intro pubOk
  constructor
  · cases amount with
    | none =>
        unfold refundPayment refundProceed
        rw [hfind]
        simp [hstat, publishPaymentEvent_store]
    | some a =>
        have hy : 0 < a ∧ a ≤ payment.price := by
          simpa [amountValidB] using hamt
        have hbad : ¬ (a ≤ 0 ∨ payment.price < a) := by
          push_neg
          exact hy
        unfold refundPayment refundProceed
        rw [hfind]
        simp [hstat, hbad, publishPaymentEvent_store]
  · intro req n
    rcases h : resolveExisting st.store req with _ | p0 <;>
      simp [processPayment, h, publishByStatus_store]

theorem refund_and_process_isolate_publish_failure_witness :
    getPayment fix6State.store "pay-2" = some fix6Payment
    ∧ fix6Payment.status = statusSuccess
    ∧ amountValidB (some 20) fix6Payment.price = true
    ∧ (refundPayment false fix6State "pay-2" (some 20) "customer" 9).1 =
        Except.ok { fix6Payment with status := statusRefunded, updatedDate := 9 }
    ∧ (refundPayment false fix6State "pay-2" (some 20) "customer" 9).2.store =
        updatePayment fix6State.store { fix6Payment with status := statusRefunded, updatedDate := 9 } :=
  ⟨by decide, by decide, by decide,
   ((refund_and_process_isolate_publish_failure fix6State "pay-2" "customer" (some 20) 9 fix6Payment
       (by decide) (by decide) (by decide)) false).1.1,
   ((refund_and_process_isolate_publish_failure fix6State "pay-2" "customer" (some 20) 9 fix6Payment
       (by decide) (by decide) (by decide)) false).1.2⟩

/-- C9: a successful refund returns exactly the stored payment with only
Status set to refunded and UpdatedDate refreshed - PaymentID, OrderID, Price,
URL and CreatedDate are carried over unchanged - persists exactly that
record, and leaves every row with a different PaymentID in the store. -/
theorem refundPayment_mutates_only_status_and_updatedDate (pubOk : Bool) (st : ServiceState)
    (paymentID reason : String) (amount : Option Rat) (now : Nat) (payment : Payment)
    (hfind : getPayment st.store paymentID = some payment)
    (hstat : payment.status = statusSuccess)
    (hamt : amountValidB amount payment.price = true) :
    (refundPayment pubOk st paymentID amount reason now).1 =
      Except.ok { payment with status := statusRefunded, updatedDate := now }
    ∧ ({ payment with status := statusRefunded, updatedDate := now } : Payment).paymentID
        = payment.paymentID
    ∧ ({ payment with status := statusRefunded, updatedDate := now } : Payment).orderID
        = payment.orderID
    ∧ ({ payment with status := statusRefunded, updatedDate := now } : Payment).price
        = payment.price
    ∧ ({ payment with status := statusRefunded, updatedDate := now } : Payment).url
        = payment.url
    ∧ ({ payment with status := statusRefunded, updatedDate := now } : Payment).createdDate
        = payment.createdDate
    ∧ (refundPayment pubOk st paymentID amount reason now).2.store =
        updatePayment st.store { payment with status := statusRefunded, updatedDate := now }
    ∧ ∀ row ∈ st.store, row.paymentID ≠ payment.paymentID →
        row ∈ (refundPayment pubOk st paymentID amount reason now).2.store := by
  have hmain :
      (refundPayment pubOk st paymentID amount reason now).1 =
        Except.ok { payment with status := statusRefunded, updatedDate := now }
      ∧ (refundPayment pubOk st paymentID amount reason now).2.store =
          updatePayment st.store { payment with status := statusRefunded, updatedDate := now } := by
    cases amount with
    | none =>
        unfold refundPayment refundProceed
        rw [hfind]
        simp [hstat, publishPaymentEvent_store]
    | some a =>
        have hy : 0 < a ∧ a ≤ payment.price := by
          simpa [amountValidB] using hamt
        have hbad : ¬ (a ≤ 0 ∨ payment.price < a) := by
          push_neg
          exact hy
        unfold refundPayment refundProceed
        rw [hfind]
        simp [hstat, hbad, publishPaymentEvent_store]
  refine ⟨hmain.1, rfl, rfl, rfl, rfl, rfl, hmain.2, ?_⟩
  intro row hrow hne
  rw [hmain.2]
  exact mem_updatePayment_of_ne st.store _ row hrow hne

theorem refundPayment_mutates_only_status_and_updatedDate_witness :
    getPayment fix6State.store "pay-2" = some fix6Payment
    ∧ (refundPayment true fix6State "pay-2" none "customer" 9).1 =
        Except.ok { fix6Payment with status := statusRefunded, updatedDate := 9 } :=
  ⟨by decide,
   (refundPayment_mutates_only_status_and_updatedDate true fix6State "pay-2" "customer" none 9
       fix6Payment (by decide) (by decide) (by decide)).1⟩

theorem applyRequest_fields (p : Payment) (req : PaymentRequest) (now : Nat) :
    (applyRequest p req now).paymentID = p.paymentID
    ∧ (applyRequest p req now).orderID = p.orderID
    ∧ (applyRequest p req now).createdDate = p.createdDate
    ∧ (applyRequest p req now).status = req.status
    ∧ (applyRequest p req now).updatedDate = now
    ∧ (applyRequest p req now).price = (if req.price > 0 then req.price else p.price)
    ∧ (applyRequest p req now).url = (if req.url != "" then req.url else p.url) := by
  unfold applyRequest
  by_cases h1 : req.price > 0 <;> by_cases h2 : (req.url != "") = true <;> simp [h1, h2]

theorem resolveExisting_no_pid (store : List Payment) (req : PaymentRequest)
    (h : req.paymentID = "") :
    resolveExisting store req = getTicketByOrderID store req.orderID := by
  unfold resolveExisting
  simp [h]

theorem getTicketByOrderID_mem (store : List Payment) (oid : String) (q : Payment)
    (h : getTicketByOrderID store oid = some q) : q ∈ store ∧ q.orderID = oid := by
  unfold getTicketByOrderID at h
  refine ⟨List.mem_of_find?_eq_some h, ?_⟩
  have hpred := List.find?_some h
  simpa using hpred

theorem getTicketByOrderID_exists (store : List Payment) (oid : String) (p : Payment)
    (hp : p ∈ store) (hoid : p.orderID = oid) :
    ∃ q, getTicketByOrderID store oid = some q ∧ q.orderID = oid := by
  unfold getTicketByOrderID
  cases h : store.find? (fun r => r.orderID == oid) with
  | none =>
      exfalso
      have hnone := List.find?_eq_none.mp h p hp
      simp [hoid] at hnone
  | some q =>
      have hpred := List.find?_some h
      exact ⟨q, rfl, by simpa using hpred⟩

theorem mem_updatePayment_self (store : List Payment) (p0 p : Payment)
    (h : p0 ∈ store) (hid : p0.paymentID = p.paymentID) : p ∈ updatePayment store p := by
  unfold updatePayment
  have hmap := List.mem_map_of_mem (fun r => if r.paymentID == p.paymentID then p else r) h
  simpa [hid] using hmap

theorem processPayment_found (pubOk : Bool) (st : ServiceState) (req : PaymentRequest)
    (now : Nat) (p0 : Payment) (h : resolveExisting st.store req = some p0) :
    (processPayment pubOk st req now).1 = Except.ok (applyRequest p0 req now)
    ∧ (processPayment pubOk st req now).2.store =
        updatePayment st.store (applyRequest p0 req now) := by
  unfold processPayment
  rw [h]
  exact ⟨rfl, by rw [publishByStatus_store]⟩

theorem processPayment_notfound (pubOk : Bool) (st : ServiceState) (req : PaymentRequest)
    (now : Nat) (h : resolveExisting st.store req = none) :
    (processPayment pubOk st req now).1 = Except.ok (newPaymentFromRequest req now)
    ∧ (processPayment pubOk st req now).2.store =
        savePayment st.store (newPaymentFromRequest req now) := by
  unfold processPayment
  rw [h]
  exact ⟨rfl, by rw [publishByStatus_store]⟩

/-- C4 counterexample: c4State stores payment p1 for order o1 with status
success; c4Request supplies the OrderID only, with no PaymentID, Status,
Price or URL. Under the claim as stated the unsupplied Status would remain
success, but ProcessPayment overwrites the stored status with the empty
status carried by the request. -/
theorem processPayment_overwrites_missing_status :
    ((c4State.store.find? (fun p => p.paymentID == "p1")).map Payment.status
        = some statusSuccess)
    ∧ (((processPayment true c4State c4Request 3).2.store.find?
          (fun p => p.paymentID == "p1")).map Payment.status = some "")
    ∧ (("" == statusSuccess) = false) := by
  decide

/-- C4 amended: ProcessPayment resolves the target by PaymentID when one is
supplied (falling back to OrderID when that lookup misses, else by OrderID),
and on a resolved payment applies Price and URL only when supplied
(Price > 0, URL nonempty) while always overwriting Status with the status
carried by the request - a request without a status overwrites with the empty
status - and refreshing UpdatedDate, then persists exactly that record; when
nothing resolves it creates and saves a new Payment from the request; and
repeated calls with the same OrderID return without error and converge to the
status supplied by the latest call. -/
theorem processPayment_partial_update_amended (pubOk : Bool) (st : ServiceState)
    (req : PaymentRequest) (now : Nat) :
    (∀ p0 : Payment, resolveExisting st.store req = some p0 →
        (processPayment pubOk st req now).1 = Except.ok (applyRequest p0 req now)
        ∧ (applyRequest p0 req now).paymentID = p0.paymentID
        ∧ (applyRequest p0 req now).orderID = p0.orderID
        ∧ (applyRequest p0 req now).createdDate = p0.createdDate
        ∧ (applyRequest p0 req now).status = req.status
        ∧ (applyRequest p0 req now).updatedDate = now
        ∧ (applyRequest p0 req now).price = (if req.price > 0 then req.price else p0.price)
        ∧ (applyRequest p0 req now).url = (if req.url != "" then req.url else p0.url)
        ∧ (processPayment pubOk st req now).2.store =
            updatePayment st.store (applyRequest p0 req now))
    ∧ (resolveExisting st.store req = none →
        (processPayment pubOk st req now).1 = Except.ok (newPaymentFromRequest req now)
        ∧ (processPayment pubOk st req now).2.store =
            savePayment st.store (newPaymentFromRequest req now))
    ∧ (req.paymentID = "" →
        ∀ (req2 : PaymentRequest) (now2 : Nat), req2.paymentID = "" →
          req2.orderID = req.orderID →
          ∃ p2 : Payment,
            (processPayment pubOk (processPayment pubOk st req now).2 req2 now2).1 =
              Except.ok p2
            ∧ p2.status = req2.status) := by
  refine ⟨?_, ?_, ?_⟩
  · intro p0 h
    obtain ⟨h1, h2⟩ := processPayment_found pubOk st req now p0 h
    obtain ⟨f1, f2, f3, f4, f5, f6, f7⟩ := applyRequest_fields p0 req now
    exact ⟨h1, f1, f2, f3, f4, f5, f6, f7, h2⟩
  · intro h
    exact processPayment_notfound pubOk st req now h
  · intro hpid req2 now2 hpid2 hoid2
    have hexists : ∃ u, u ∈ (processPayment pubOk st req now).2.store
        ∧ u.orderID = req.orderID := by
      cases h : resolveExisting st.store req with
      | none =>
          refine ⟨newPaymentFromRequest req now, ?_, rfl⟩
          rw [(processPayment_notfound pubOk st req now h).2]
          unfold savePayment
          simp
      | some p0 =>
          have hres : getTicketByOrderID st.store req.orderID = some p0 := by
            rw [resolveExisting_no_pid st.store req hpid] at h
            exact h
          obtain ⟨hmem, hoid⟩ := getTicketByOrderID_mem st.store req.orderID p0 hres
          obtain ⟨f1, f2, _⟩ := applyRequest_fields p0 req now
          refine ⟨applyRequest p0 req now, ?_, by rw [f2]; exact hoid⟩
          rw [(processPayment_found pubOk st req now p0 h).2]
          exact mem_updatePayment_self st.store p0 _ hmem f1.symm
    obtain ⟨u, humem, huoid⟩ := hexists
    obtain ⟨q, hq, _⟩ :=
      getTicketByOrderID_exists _ req2.orderID u humem (by rw [hoid2]; exact huoid)
    have hres2 : resolveExisting (processPayment pubOk st req now).2.store req2 = some q := by
      rw [resolveExisting_no_pid _ req2 hpid2]
      exact hq
    exact ⟨applyRequest q req2 now2, (processPayment_found pubOk _ req2 now2 q hres2).1,
      (applyRequest_fields q req2 now2).2.2.2.1⟩

theorem processPayment_partial_update_amended_witness :
    resolveExisting c4State.store c4RequestSuccess = some c4Payment
    ∧ (processPayment true c4State c4RequestSuccess 3).1 =
        Except.ok (applyRequest c4Payment c4RequestSuccess 3) :=
  ⟨by decide,
   ((processPayment_partial_update_amended true c4State c4RequestSuccess 3).1 c4Payment
      (by decide)).1⟩

/-- C1: evaluation of the wired ingestion path on a duplicate delivery.
ConsumeClaim saves a fresh pending payment per message before invoking the
ProcessOrderEvent handler, whose existence check therefore always finds the
row ConsumeClaim just created and skips; nothing deduplicates the save done
by ConsumeClaim itself. Consuming the same order.created message for ord-1
twice from an empty store therefore leaves two payment rows with OrderID
ord-1, not one. -/
theorem consumeClaim_duplicate_delivery_two_rows :
    countPaymentsForOrder
      (consumeOrderMessage true
        (consumeOrderMessage true initialState c1Order "uuid-a" "uuid-b" 1)
        c1Order "uuid-c" "uuid-d" 2).store "ord-1" = 2 := by
  decide

/-- C2: evaluation of a double Verify for ord-1 with the issued code 482913.
The first Verify succeeds, but the lock release compares the stored value
(the code) with the orderID and never deletes, so the confirmation lock is
still present afterwards and a second Verify with the same code returns true
again instead of false. -/
theorem verifyOTP_code_reusable_after_verify :
    verifyOTP true c2State "ord-1" "482913" = some (true, c2After)
    ∧ lockGet c2After.locks "ord-1" = some "482913"
    ∧ (verifyOTP true c2After "ord-1" "482913").map Prod.fst = some true := by
  refine ⟨by decide, by decide, by decide⟩

/-- C3: evaluation of Verify for an order with no stored payment. The store
lookup fails, and the failure branch hands the nil payment pointer to
publishPaymentEvent, which dereferences it: the call is a runtime panic
(modelled as none), not a normal false return. -/
theorem verifyOTP_missing_payment_panics :
    getTicketByOrderID c3State.store "ord-x" = none
    ∧ verifyOTP true c3State "ord-x" "123456" = none := by
  refine ⟨by decide, by decide⟩
